import Mathlib

/-!
Verification of the request/authentication core of the hydroxide
ProtonMail API client (`protonmail/protonmail.go`).

The development shallowly embeds the credential state, the request
builder (`setRequestAuthorization`, `newRequest`, `newJSONRequest`),
the transport executor with its 401 re-authentication retry protocol
(`Client.do`), and the JSON response decoder (`resp.Err`,
`Client.doJSON`), and proves the specification's claims about them.

Modelling conventions:
- machine integers are `Nat`/`Int`;
- the HTTP transport is a list of responses consumed one per send, an
  exhausted list standing for a transport error from `httpClient.Do`;
- the `ReAuth` hook, a Go closure mutating the client, is a function
  from credentials to `Except String Creds`;
- `doSend` additionally records the requests handed to the transport
  and the credential states passed to the hook, so that retry counts
  and hook invocations are observable.
-/

namespace Protonmail

/-- Go constant `Version = 3`. -/
def Version : Nat := 3

/-- Go constant `headerAPIVersion = "X-Pm-Apiversion"`. -/
def headerAPIVersion : String := "X-Pm-Apiversion"

/-- Go constant `headerAppVersion = "X-Pm-Appversion"`. -/
def headerAppVersion : String := "X-Pm-Appversion"

/-- A cookie, as attached by `http.Request.AddCookie`. -/
structure Cookie where
  name : String
  value : String
deriving DecidableEq, Repr

/-- An outbound HTTP request. `headers` models `http.Header` with
`Set` semantics; `cookies` models the cookies added by `AddCookie`
(which appends, never replaces); `body` is the byte content of
`req.Body` (`none` for a nil body); `getBody` models `req.GetBody`,
a replay closure producing the body bytes (or an error) on each
invocation. -/
structure Request where
  method : String
  url : String
  headers : List (String × String)
  cookies : List Cookie
  body : Option (List Nat)
  getBody : Option (Unit → Except String (List Nat))

/-- Models `http.Header.Set`: replaces every existing value for the key
with the single new value. -/
def headersSet (hs : List (String × String)) (k v : String) :
    List (String × String) :=
  (k, v) :: hs.filter (fun p => p.1 ≠ k)

/-- Set a header on a request (`req.Header.Set(k, v)`). -/
def Request.setHeader (req : Request) (k v : String) : Request :=
  { req with headers := headersSet req.headers k v }

/-- Models the Go map-presence test `_, ok := req.Header[k]`. -/
def Request.hasHeader (req : Request) (k : String) : Bool :=
  req.headers.any (fun p => p.1 == k)

/-- Models `req.AddCookie(c)`: appends to the Cookie header. -/
def Request.addCookie (req : Request) (c : Cookie) : Request :=
  { req with cookies := req.cookies ++ [c] }

/-- The mutable credential fields of `Client`: `uid` (the session
identity), `accessToken` (bearer token) and `authToken` (session
cookie value). The `keyRing` field is opaque to this core and is
omitted. -/
structure Creds where
  uid : String
  accessToken : String
  authToken : String
deriving DecidableEq, Repr

/-- The configuration fields of `Client`. The credential fields live in
`Creds` and the `ReAuth` hook is passed explicitly to the operations
that use it. -/
structure Client where
  rootURL : String
  appVersion : String
  creds : Creds

/-- Upper-case hexadecimal digit, as produced by `net/url` escaping. -/
def upperHexDigit (n : Nat) : Char :=
  if n < 10 then Char.ofNat (48 + n) else Char.ofNat (55 + n)

/-- Models `url.shouldEscape(c, encodeQueryComponent)`: alphanumerics
and `-`, `_`, `.`, `~` are kept, every other byte is escaped. -/
def shouldEscapeQueryByte (b : Nat) : Bool :=
  !((65 ≤ b && b ≤ 90) || (97 ≤ b && b ≤ 122) || (48 ≤ b && b ≤ 57) ||
    b == 45 || b == 95 || b == 46 || b == 126)

/-- One byte of `url.QueryEscape` output: kept verbatim, space as `+`,
otherwise `%XX` with upper-case hex. -/
def queryEscapeByte (b : Nat) : List Char :=
  if !shouldEscapeQueryByte b then [Char.ofNat b]
  else if b == 32 then ['+']
  else ['%', upperHexDigit (b / 16), upperHexDigit (b % 16)]

/-- Models `url.QueryEscape`, operating on the UTF-8 bytes of the
string. -/
def queryEscape (s : String) : String :=
  String.mk (s.toUTF8.toList.flatMap (fun b => queryEscapeByte b.toNat))

/-- Models `Client.setRequestAuthorization`: when `uid` is non-empty,
set the `X-Pm-Uid` header, add the `AUTH-<uid>` cookie holding the
percent-encoded `authToken` when that is non-empty, and set the bearer
`Authorization` header when `accessToken` is non-empty. -/
def setRequestAuthorization (c : Creds) (req : Request) : Request :=
  if c.uid ≠ "" then
    let req1 := req.setHeader "X-Pm-Uid" c.uid
    let req2 := if c.authToken ≠ "" then
        req1.addCookie { name := "AUTH-" ++ c.uid,
                         value := queryEscape c.authToken }
      else req1
    let req3 := if c.accessToken ≠ "" then
        req2.setHeader "Authorization" ("Bearer " ++ c.accessToken)
      else req2
    req3
  else req

/-- Models `Client.newRequest` for the body readers used in this file:
`http.NewRequest` itself installs a snapshotting `GetBody` replay when
the body is a `bytes.Reader`, which is how every call site here
supplies a body. The version header value is `strconv.Itoa(Version)`. -/
def newRequest (c : Client) (method path : String)
    (body : Option (List Nat)) : Request :=
  let req : Request :=
    { method := method
      url := c.rootURL ++ path
      headers := []
      cookies := []
      body := body
      getBody := body.map (fun b => fun _ => Except.ok b) }
  let req1 := req.setHeader headerAppVersion c.appVersion
  let req2 := req1.setHeader headerAPIVersion (toString Version)
  setRequestAuthorization c.creds req2

/-- Models `Client.newJSONRequest`. JSON serialization is abstracted:
`encoded` is the outcome of `json.NewEncoder(&buf).Encode(body)`, the
bytes being produced exactly once. On success the request carries those
bytes as its body and `GetBody` is overwritten with a closure returning
a fresh reader over the same retained byte buffer. -/
def newJSONRequest (c : Client) (method path : String)
    (encoded : Except String (List Nat)) : Except String Request :=
  match encoded with
  | .error e => .error e
  | .ok b =>
    let req := newRequest c method path (some b)
    let req1 := req.setHeader "Content-Type" "application/json"
    .ok { req1 with getBody := some (fun _ => Except.ok b) }

/-- The decoded generic response envelope (Go struct `resp`): the
numeric `Code` field plus the embedded `*RawAPIError`. `rawError =
some m` exactly when the JSON object contains the key `"Error"` (the
Go decoder allocates the embedded pointer whenever the key is present,
even with value `""`); `none` when the key is absent. -/
structure RespEnvelope where
  Code : Int
  rawError : Option String
deriving DecidableEq, Repr

/-- Go struct `APIError`: numeric code plus message. -/
structure APIError where
  Code : Int
  Message : String
deriving DecidableEq, Repr

/-- Models `(*resp).Err()`: a typed API error whenever the embedded
`RawAPIError` is non-nil, built from the envelope's `Code` and the raw
message. -/
def respErr (r : RespEnvelope) : Option APIError :=
  match r.rawError with
  | some m => some { Code := r.Code, Message := m }
  | none => none

/-- An HTTP response: status code plus its JSON body decoded into the
generic envelope (`none` models a body that is not valid JSON). -/
structure Response where
  statusCode : Nat
  body : Option RespEnvelope
deriving DecidableEq, Repr

/-- The `ReAuth` hook (`func() error` mutating the client credentials
through its closure), modelled as a credential transformer that may
fail. -/
def ReAuthHook := Creds → Except String Creds

/-- The observable outcome of `Client.do`: the returned
response-or-error, the final credential state, the requests handed to
the transport in order, and the credential states passed to the
`ReAuth` hook in order. -/
structure DoOutcome where
  result : Except String Response
  creds : Creds
  sent : List Request
  hookInputs : List Creds

/-- Models `Client.do`. The transport is a list of responses consumed
one per send; an empty list models a transport error from
`httpClient.Do`. On a 401 with an `Authorization` header present, a
configured hook, and a replayable body, the access token is cleared,
the hook runs, authorization is re-attached, the body is
re-materialized via `GetBody`, and the send restarts recursively; on
any other response, or when a guard fails, the response is returned
unmodified. The branch for a present body with a nil `GetBody` is
unreachable under the guard and stands for the Go nil-call panic. -/
def doSend (reAuth : Option ReAuthHook) :
    Creds → Request → List Response → DoOutcome
  | creds, req, [] =>
    { result := .error "transport error", creds := creds
      sent := [req], hookInputs := [] }
  | creds, req, r :: rest =>
    if h : r.statusCode = 401 ∧ req.hasHeader "Authorization" = true ∧
        reAuth.isSome = true ∧
        (req.body.isNone || req.getBody.isSome) = true then
      let creds1 : Creds := { creds with accessToken := "" }
      match reAuth.get h.2.2.1 creds1 with
      | .error e =>
        { result := .error e, creds := creds1
          sent := [req], hookInputs := [creds1] }
      | .ok creds2 =>
        let req1 := setRequestAuthorization creds2 req
        match req1.body with
        | none =>
          let out := doSend reAuth creds2 req1 rest
          { out with sent := req :: out.sent
                     hookInputs := creds1 :: out.hookInputs }
        | some _ =>
          match req1.getBody with
          | none =>
            { result := .error "nil GetBody", creds := creds2
              sent := [req], hookInputs := [creds1] }
          | some gb =>
            match gb () with
            | .error e =>
              { result := .error e, creds := creds2
                sent := [req], hookInputs := [creds1] }
            | .ok b =>
              let out := doSend reAuth creds2 { req1 with body := some b } rest
              { out with sent := req :: out.sent
                         hookInputs := creds1 :: out.hookInputs }
    else
      { result := .ok r, creds := creds, sent := [req], hookInputs := [] }

/-- The error taxonomy observable from `Client.doJSON`. -/
inductive ClientError where
  /-- An untyped Go error from `do`: transport, re-auth, or replay. -/
  | goError (msg : String)
  /-- A JSON decoding failure. -/
  | decodeError
  /-- A typed API error extracted from the decoded envelope. -/
  | apiError (e : APIError)
deriving DecidableEq, Repr

/-- Models `Client.doJSON` on the `respData == nil` path: set the
`Accept` header, send through `do`, decode the body into the generic
envelope, and surface `(*resp).Err()` when it is non-nil; a successful
call yields the decoded envelope. -/
def doJSON (reAuth : Option ReAuthHook) (creds : Creds) (req : Request)
    (transport : List Response) : Except ClientError RespEnvelope :=
  let req1 := req.setHeader "Accept" "application/json"
  let out := doSend reAuth creds req1 transport
  match out.result with
  | .error e => .error (ClientError.goError e)
  | .ok resp =>
    match resp.body with
    | none => .error ClientError.decodeError
    | some envelope =>
      match respErr envelope with
      | some apiErr => .error (ClientError.apiError apiErr)
      | none => .ok envelope

/-! ### Concrete fixtures used by counterexamples and witnesses -/

/-- A populated credential state: session `u1`, bearer token `t1`,
cookie token `a1`. -/
def credsU1T1 : Creds := { uid := "u1", accessToken := "t1", authToken := "a1" }

/-- A client configured with `credsU1T1`. -/
def clientU1 : Client :=
  { rootURL := "https://api.example", appVersion := "web", creds := credsU1T1 }

/-- A client whose session identifier is empty (but with stray token
values, to show they alone attach nothing). -/
def clientAnon : Client :=
  { rootURL := "https://api.example", appVersion := "web",
    creds := { uid := "", accessToken := "t1", authToken := "a1" } }

/-- The bodyless GET request the builder produces for `clientU1`; it
carries an `Authorization` header. -/
def reqAuthed : Request := newRequest clientU1 "GET" "/x" none

/-- A bare request with no headers, cookies or body. -/
def reqBare : Request :=
  { method := "GET", url := "/x", headers := [], cookies := [],
    body := none, getBody := none }

/-- A re-authentication hook that always succeeds and installs the
fresh bearer token `t2`. -/
def hookT2 : ReAuthHook := fun c => .ok { c with accessToken := "t2" }

/-- The credential state `hookT2` produces from the cleared
`credsU1T1`. -/
def credsU1T2 : Creds := { uid := "u1", accessToken := "t2", authToken := "a1" }

/-- An unauthorized response. -/
def r401 : Response := { statusCode := 401, body := none }

/-- A successful response whose body decodes to the envelope with
`Code` 1000 and no error field. -/
def r200ok : Response :=
  { statusCode := 200, body := some { Code := 1000, rawError := none } }

/-- The JSON POST request the builder produces for `clientU1` from the
serialized body bytes 1, 2, 3: it carries an `Authorization` header, a
body, and the replay function `newJSONRequest` installs over the
retained buffer. The error branch is unreachable for an `.ok`
encoding. -/
def reqJSON : Request :=
  match newJSONRequest clientU1 "POST" "/x" (.ok [1, 2, 3]) with
  | .ok req => req
  | .error _ => reqBare

/-! ### Basic lemmas about the request builder and the executor -/

/-- Attaching authorization never changes the request body. -/
theorem setRequestAuthorization_body (c : Creds) (req : Request) :
    (setRequestAuthorization c req).body = req.body := by
  simp only [setRequestAuthorization, Request.setHeader, Request.addCookie]
  split_ifs <;> rfl

/-- Attaching authorization never changes the replay function. -/
theorem setRequestAuthorization_getBody (c : Creds) (req : Request) :
    (setRequestAuthorization c req).getBody = req.getBody := by
  simp only [setRequestAuthorization, Request.setHeader, Request.addCookie]
  split_ifs <;> rfl

/-- After `Header.Set` the key is present. -/
theorem any_key_headersSet_same (hs : List (String × String)) (k v : String) :
    ((headersSet hs k v).any (fun p => p.1 == k)) = true := by
  simp [headersSet]

/-- `Header.Set` leaves the presence of every other key unchanged. -/
theorem any_key_headersSet_ne (hs : List (String × String)) (k v k2 : String)
    (h : k2 ≠ k) :
    (headersSet hs k v).any (fun p => p.1 == k2) =
      hs.any (fun p => p.1 == k2) := by
  have h2 : ¬(k = k2) := fun e => h e.symm
  have hfg : (fun a : String × String => !decide (a.1 = k) && (a.1 == k2)) =
      (fun p : String × String => p.1 == k2) := by
    funext a
    by_cases ha : a.1 = k2
    · simp [ha, fun e : k2 = k => h e]
    · simp [ha]
  simp [headersSet, h2, hfg]

/-- Attaching authorization never removes an `Authorization` header:
once a request carries one, the retried request still does. -/
theorem setRequestAuthorization_hasAuth (c : Creds) (req : Request)
    (h : req.hasHeader "Authorization" = true) :
    (setRequestAuthorization c req).hasHeader "Authorization" = true := by
  simp only [setRequestAuthorization, Request.setHeader, Request.addCookie,
    Request.hasHeader] at h ⊢
  split_ifs
  all_goals
    first
    | exact any_key_headersSet_same _ _ _
    | (rw [any_key_headersSet_ne _ _ _ _ (by decide)]; exact h)
    | exact h

/-- Every run of `do` hands the original request to the transport
first. -/
theorem doSend_sent_head (reAuth : Option ReAuthHook) (creds : Creds)
    (req : Request) (transport : List Response) :
    (doSend reAuth creds req transport).sent.head? = some req := by
  cases transport with
  | nil => rfl
  | cons r rest =>
    unfold doSend
    split
    · dsimp only
      split
      · rfl
      · split
        · rfl
        · split
          · rfl
          · split
            · rfl
            · rfl
    · rfl

/-- One step of `do` when a retry guard fails: the response is returned
unmodified, the credentials are untouched, exactly one request was
sent, and the hook was never invoked. -/
theorem doSend_guard_fail (reAuth : Option ReAuthHook) (creds : Creds)
    (req : Request) (r : Response) (rest : List Response)
    (hfail : ¬(r.statusCode = 401 ∧ req.hasHeader "Authorization" = true ∧
        reAuth.isSome = true ∧ (req.body.isNone || req.getBody.isSome) = true)) :
    doSend reAuth creds req (r :: rest) =
      { result := .ok r, creds := creds, sent := [req], hookInputs := [] } := by
  unfold doSend
  rw [dif_neg hfail]

/-- One step of `do` on a 401 with the guards holding when the hook
fails: the hook's error is the result, the access token stays cleared,
and the request is not resent. -/
theorem doSend_hook_error (hook : ReAuthHook) (creds : Creds)
    (req : Request) (r : Response) (rest : List Response) (e : String)
    (h401 : r.statusCode = 401)
    (hauth : req.hasHeader "Authorization" = true)
    (hretry : (req.body.isNone || req.getBody.isSome) = true)
    (hfail : hook { creds with accessToken := "" } = .error e) :
    doSend (some hook) creds req (r :: rest) =
      { result := .error e, creds := { creds with accessToken := "" },
        sent := [req], hookInputs := [{ creds with accessToken := "" }] } := by
  unfold doSend
  rw [dif_pos ⟨h401, hauth, rfl, hretry⟩]
  dsimp only [Option.get_some]
  rw [hfail]

/-- One step of `do` on a 401 with the guards holding, for a bodyless
request, when the hook succeeds: authorization is re-attached with the
hook's credentials and the send restarts on the remaining transport. -/
theorem doSend_retry_bodyless (hook : ReAuthHook) (creds c2 : Creds)
    (req : Request) (r : Response) (rest : List Response)
    (h401 : r.statusCode = 401)
    (hauth : req.hasHeader "Authorization" = true)
    (hbody : req.body = none)
    (hok : hook { creds with accessToken := "" } = .ok c2) :
    doSend (some hook) creds req (r :: rest) =
      (let out := doSend (some hook) c2 (setRequestAuthorization c2 req) rest
       { result := out.result, creds := out.creds,
         sent := req :: out.sent,
         hookInputs := { creds with accessToken := "" } :: out.hookInputs }) := by
  conv_lhs => unfold doSend
  rw [dif_pos ⟨h401, hauth, rfl, by simp [hbody]⟩]
  dsimp only [Option.get_some]
  rw [hok]
  dsimp only
  rw [show (setRequestAuthorization c2 req).body = none from
    (setRequestAuthorization_body c2 req).trans hbody]

/-- One step of `do` on a 401 with the guards holding, for a request
with a body and a replay function that succeeds, when the hook
succeeds: authorization is re-attached with the hook's credentials,
the body is re-materialized from the bytes `GetBody` yields, and the
send restarts on the remaining transport. -/
theorem doSend_retry_body (hook : ReAuthHook) (creds c2 : Creds)
    (req : Request) (r : Response) (rest : List Response)
    (bs b : List Nat) (gb : Unit → Except String (List Nat))
    (h401 : r.statusCode = 401)
    (hauth : req.hasHeader "Authorization" = true)
    (hbody : req.body = some bs)
    (hgb : req.getBody = some gb)
    (hgbok : gb () = Except.ok b)
    (hok : hook { creds with accessToken := "" } = .ok c2) :
    doSend (some hook) creds req (r :: rest) =
      (let out := doSend (some hook) c2
          { setRequestAuthorization c2 req with body := some b } rest
       { result := out.result, creds := out.creds,
         sent := req :: out.sent,
         hookInputs := { creds with accessToken := "" } :: out.hookInputs }) := by
  conv_lhs => unfold doSend
  rw [dif_pos ⟨h401, hauth, rfl, by simp [hgb]⟩]
  dsimp only [Option.get_some]
  rw [hok]
  dsimp only
  have hb1 : (setRequestAuthorization c2 req).body = some bs :=
    (setRequestAuthorization_body c2 req).trans hbody
  have hg1 : (setRequestAuthorization c2 req).getBody = some gb :=
    (setRequestAuthorization_getBody c2 req).trans hgb
  split
  · rename_i heq
    rw [hb1] at heq
    exact absurd heq (by simp)
  · rename_i val heq
    split
    · rename_i heq2
      rw [hg1] at heq2
      exact absurd heq2 (by simp)
    · rename_i gb1 heq2
      rw [hg1] at heq2
      obtain rfl : gb1 = gb := (Option.some.inj heq2).symm
      split
      · rename_i e heq3
        rw [hgbok] at heq3
        exact absurd heq3 (by simp)
      · rename_i b1 heq3
        rw [hgbok] at heq3
        obtain rfl : b1 = b := (Except.ok.inj heq3).symm
        rfl

/-- The builder never loses the body passed to it. -/
theorem newRequest_body (c : Client) (method path : String)
    (body : Option (List Nat)) :
    (newRequest c method path body).body = body := by
  unfold newRequest
  rw [setRequestAuthorization_body]
  rfl

/-- Every credential state handed to the `ReAuth` hook during a send
has an empty access token: the token is cleared before each hook
invocation. -/
theorem doSend_hookInputs_cleared (reAuth : Option ReAuthHook) :
    ∀ (transport : List Response) (creds : Creds) (req : Request),
      ∀ c ∈ (doSend reAuth creds req transport).hookInputs,
        c.accessToken = "" := by
  intro transport
  induction transport with
  | nil =>
    intro creds req c hc
    simp [doSend] at hc
  | cons r rest ih =>
    intro creds req c hc
    unfold doSend at hc
    split at hc
    · try dsimp only at hc
      split at hc
      · simp at hc
        subst hc
        rfl
      · try dsimp only at hc
        split at hc
        · try dsimp only at hc
          rcases List.mem_cons.mp hc with h | h
          · subst h; rfl
          · exact ih _ _ c h
        · split at hc
          · simp at hc; subst hc; rfl
          · split at hc
            · simp at hc; subst hc; rfl
            · try dsimp only at hc
              rcases List.mem_cons.mp hc with h | h
              · subst h; rfl
              · exact ih _ _ c h
    · simp at hc

/-- When a 401 arrives with all three guards holding, the first hook
invocation receives exactly the caller's credentials with the access
token cleared. -/
theorem doSend_hookInputs_head (reAuth : Option ReAuthHook) (creds : Creds)
    (req : Request) (r : Response) (rest : List Response)
    (h : r.statusCode = 401 ∧ req.hasHeader "Authorization" = true ∧
        reAuth.isSome = true ∧ (req.body.isNone || req.getBody.isSome) = true) :
    (doSend reAuth creds req (r :: rest)).hookInputs.head? =
      some { creds with accessToken := "" } := by
  unfold doSend
  rw [dif_pos h]
  dsimp only
  split
  · rfl
  · split
    · rfl
    · split
      · rfl
      · split
        · rfl
        · rfl

/-- After `Header.Set`, filtering for the key leaves exactly the new
entry: old values are overwritten, not accumulated. -/
theorem filter_key_headersSet_same (hs : List (String × String)) (k v : String) :
    (headersSet hs k v).filter (fun p => p.1 == k) = [(k, v)] := by
  have hfg : (fun a : String × String => decide (a.1 ≠ k) && (a.1 == k)) =
      (fun _ : String × String => false) := by
    funext a
    by_cases ha : a.1 = k <;> simp [ha]
  simp [headersSet, List.filter_filter, hfg]

/-- `Header.Set` leaves the entries of every other key unchanged. -/
theorem filter_key_headersSet_ne (hs : List (String × String)) (k v k2 : String)
    (h : k2 ≠ k) :
    (headersSet hs k v).filter (fun p => p.1 == k2) =
      hs.filter (fun p => p.1 == k2) := by
  have h2 : ¬(k = k2) := fun e => h e.symm
  have hfg : (fun a : String × String => (a.1 == k2) && !decide (a.1 = k)) =
      (fun p : String × String => p.1 == k2) := by
    funext a
    by_cases ha : a.1 = k2
    · simp [ha, fun e : k2 = k => h e]
    · simp [ha]
  simp [headersSet, h2, List.filter_filter, hfg]

/-- With non-empty `uid` and `accessToken`, attaching authorization
rewrites the headers by `Set` on `X-Pm-Uid` and then on
`Authorization`. -/
theorem setRequestAuthorization_headers (c : Creds) (req : Request)
    (huid : c.uid ≠ "") (hacc : c.accessToken ≠ "") :
    (setRequestAuthorization c req).headers =
      headersSet (headersSet req.headers "X-Pm-Uid" c.uid)
        "Authorization" ("Bearer " ++ c.accessToken) := by
  unfold setRequestAuthorization
  rw [if_pos huid]
  dsimp only
  rw [if_pos hacc]
  split_ifs <;> rfl

/-- With non-empty `uid` and `accessToken`, the request leaves the
builder with an `Authorization` header. -/
theorem setRequestAuthorization_hasAuth_of_creds (c : Creds) (req : Request)
    (huid : c.uid ≠ "") (hacc : c.accessToken ≠ "") :
    (setRequestAuthorization c req).hasHeader "Authorization" = true := by
  simp only [Request.hasHeader, setRequestAuthorization_headers c req huid hacc]
  exact any_key_headersSet_same _ _ _

/-- With non-empty `uid` and `authToken`, attaching authorization
appends (via `AddCookie`) exactly one cookie, named by the fixed prefix
`AUTH-` concatenated with `uid` and valued with the percent-encoded
`authToken`. -/
theorem setRequestAuthorization_cookies (c : Creds) (req : Request)
    (huid : c.uid ≠ "") (htok : c.authToken ≠ "") :
    (setRequestAuthorization c req).cookies =
      req.cookies ++
        [{ name := "AUTH-" ++ c.uid, value := queryEscape c.authToken }] := by
  unfold setRequestAuthorization
  rw [if_pos huid]
  dsimp only
  rw [if_pos htok]
  split_ifs <;> rfl

/-! ### The claims -/

/-- C1, counterexample: the claim says that after a successful
re-authentication and resend, a second 401 is returned to the caller
as the terminal outcome and is not retried again within the same call.
On the transport trace 401, 401, 200, with an always-succeeding hook
and the JSON request `reqJSON` — which carries an `Authorization`
header and a replayable body — `do` instead retries the second 401 as
well: three requests go out, each resend re-materializing the same
body bytes via the replay function, the hook runs twice, and the call
returns the 200 response, not the second 401. -/
theorem c1_counterexample :
    (doSend (some hookT2) credsU1T1 reqJSON [r401, r401, r200ok]).result =
      .ok r200ok ∧
    (doSend (some hookT2) credsU1T1 reqJSON [r401, r401, r200ok]).sent.length = 3 ∧
    (doSend (some hookT2) credsU1T1 reqJSON
        [r401, r401, r200ok]).hookInputs.length = 2 ∧
    (doSend (some hookT2) credsU1T1 reqJSON [r401, r401, r200ok]).sent.map
        (fun rq => rq.body) =
      [some [1, 2, 3], some [1, 2, 3], some [1, 2, 3]] :=
  ⟨rfl, rfl, rfl, rfl⟩

/-- C1, amended: each individual 401 triggers exactly one
re-authentication and one resend, but the recursion is not bounded to
a single retry per call: whenever the guards hold — an `Authorization`
header is present and the body is either absent or replayable, with
every replay succeeding — `n` consecutive 401s with a hook that
succeeds every time, followed by a non-401 response, make the send
re-authenticate and resend `n` times and return the final response;
the retry loop ends only when the transport stops answering 401. -/
theorem c1_retry_unbounded (hook : ReAuthHook)
    (hhook : ∀ c, ∃ c2, hook c = Except.ok c2)
    (rq rf : Response) (h401 : rq.statusCode = 401) (hfin : rf.statusCode ≠ 401)
    (n : Nat) (creds : Creds) (req : Request)
    (hauth : req.hasHeader "Authorization" = true)
    (hretry : (req.body.isNone || req.getBody.isSome) = true)
    (hreplay : ∀ gb, req.getBody = some gb → ∃ b, gb () = Except.ok b) :
    (doSend (some hook) creds req (List.replicate n rq ++ [rf])).result = .ok rf ∧
    (doSend (some hook) creds req (List.replicate n rq ++ [rf])).sent.length = n + 1 := by
  induction n generalizing creds req with
  | zero =>
    rw [List.replicate_zero, List.nil_append,
      doSend_guard_fail _ _ _ _ _ (fun hc => hfin hc.1)]
    exact ⟨rfl, rfl⟩
  | succ n ih =>
    obtain ⟨c2, hc2⟩ := hhook { creds with accessToken := "" }
    rw [List.replicate_succ, List.cons_append]
    cases hb : req.body with
    | none =>
      rw [doSend_retry_bodyless hook creds c2 req rq _ h401 hauth hb hc2]
      obtain ⟨ih1, ih2⟩ := ih c2 (setRequestAuthorization c2 req)
        (setRequestAuthorization_hasAuth c2 req hauth)
        (by rw [setRequestAuthorization_body, hb]; rfl)
        (fun gb hgb =>
          hreplay gb ((setRequestAuthorization_getBody c2 req).symm.trans hgb))
      refine ⟨ih1, ?_⟩
      simp only [List.length_cons, ih2]
    | some bs =>
      have hgbs : req.getBody.isSome = true := by
        rw [hb] at hretry
        simpa using hretry
      obtain ⟨gb, hgb⟩ := Option.isSome_iff_exists.mp hgbs
      obtain ⟨b, hgbok⟩ := hreplay gb hgb
      rw [doSend_retry_body hook creds c2 req rq _ bs b gb h401 hauth hb hgb
        hgbok hc2]
      have hgb2 : ({ setRequestAuthorization c2 req with
          body := some b } : Request).getBody = some gb :=
        (setRequestAuthorization_getBody c2 req).trans hgb
      obtain ⟨ih1, ih2⟩ := ih c2
        { setRequestAuthorization c2 req with body := some b }
        (setRequestAuthorization_hasAuth c2 req hauth)
        (by rw [hgb2]; rfl)
        (fun gb2 hgb22 =>
          hreplay gb2 ((setRequestAuthorization_getBody c2 req).symm.trans hgb22))
      refine ⟨ih1, ?_⟩
      simp only [List.length_cons, ih2]

/-- C1, witness: the amended theorem at the concrete fixtures, with
the replayable-body JSON request and two consecutive 401s. -/
theorem c1_retry_unbounded_witness :
    (doSend (some hookT2) credsU1T1 reqJSON
        (List.replicate 2 r401 ++ [r200ok])).result = .ok r200ok ∧
    (doSend (some hookT2) credsU1T1 reqJSON
        (List.replicate 2 r401 ++ [r200ok])).sent.length = 2 + 1 :=
  c1_retry_unbounded hookT2 (fun c => ⟨{ c with accessToken := "t2" }, rfl⟩)
    r401 r200ok rfl (by decide) 2 credsU1T1 reqJSON (by decide) (by decide)
    (fun gb hgb =>
      ⟨[1, 2, 3],
        by
          have h2 : gb = fun _ : Unit => Except.ok [1, 2, 3] :=
            Option.some.inj (hgb.symm.trans rfl)
          rw [h2]⟩)

/-- C2: on a 401 where any of the three guards fails — no
`Authorization` header, no configured hook, or a body without a replay
function — no retry occurs: the hook is never invoked, the credentials
(including the access token) are untouched, exactly one request was
sent, and the unauthorized response is returned unmodified. -/
theorem c2_guard_fail_no_retry (reAuth : Option ReAuthHook) (creds : Creds)
    (req : Request) (r : Response) (rest : List Response)
    (_h401 : r.statusCode = 401)
    (hfail : req.hasHeader "Authorization" = false ∨ reAuth = none ∨
             (req.body.isNone || req.getBody.isSome) = false) :
    doSend reAuth creds req (r :: rest) =
      { result := .ok r, creds := creds, sent := [req], hookInputs := [] } := by
  refine doSend_guard_fail reAuth creds req r rest ?_
  rintro ⟨-, h2, h3, h4⟩
  rcases hfail with h | h | h
  · rw [h2] at h; exact absurd h (by decide)
  · subst h; simp at h3
  · rw [h4] at h; exact absurd h (by decide)

/-- C2, witness: a 401 with no hook configured is returned unchanged
with nothing else happening. -/
theorem c2_guard_fail_no_retry_witness :
    doSend none credsU1T1 reqAuthed [r401] =
      { result := .ok r401, creds := credsU1T1, sent := [reqAuthed],
        hookInputs := [] } :=
  c2_guard_fail_no_retry none credsU1T1 reqAuthed r401 [] rfl
    (Or.inr (Or.inl rfl))

/-- C3: on a 401 with all three guards holding, when the hook fails its
error is the final result of the send, the request is not resent
(exactly one request went out), and the access token remains empty —
the final credential state is the original one with the token cleared,
not restored. -/
theorem c3_reauth_error_propagates (hook : ReAuthHook) (creds : Creds)
    (req : Request) (r : Response) (rest : List Response) (e : String)
    (h401 : r.statusCode = 401)
    (hauth : req.hasHeader "Authorization" = true)
    (hretry : (req.body.isNone || req.getBody.isSome) = true)
    (hfail : hook { creds with accessToken := "" } = .error e) :
    doSend (some hook) creds req (r :: rest) =
      { result := .error e, creds := { creds with accessToken := "" },
        sent := [req], hookInputs := [{ creds with accessToken := "" }] } ∧
    ({ creds with accessToken := "" } : Creds).accessToken = "" :=
  ⟨doSend_hook_error hook creds req r rest e h401 hauth hretry hfail, rfl⟩

/-- C3, witness: a failing hook at the concrete fixtures. -/
theorem c3_reauth_error_propagates_witness :
    doSend (some (fun _ => .error "reauth failed")) credsU1T1 reqAuthed [r401] =
      { result := .error "reauth failed",
        creds := { credsU1T1 with accessToken := "" },
        sent := [reqAuthed],
        hookInputs := [{ credsU1T1 with accessToken := "" }] } ∧
    ({ credsU1T1 with accessToken := "" } : Creds).accessToken = "" :=
  c3_reauth_error_propagates (fun _ => .error "reauth failed") credsU1T1
    reqAuthed r401 [] "reauth failed" rfl (by decide) (by decide) rfl

/-- C4, counterexample: the claim says a typed API error is produced
only when the decoded body contains a non-empty error-message field.
But a body whose `Error` key is present with the empty string still
allocates the embedded error struct, so decoding yields a typed API
error with an empty message. -/
theorem c4_counterexample :
    doJSON none credsU1T1 reqAuthed
        [{ statusCode := 200, body := some { Code := 401, rawError := some "" } }] =
      .error (ClientError.apiError { Code := 401, Message := "" }) ∧
    respErr { Code := 401, rawError := some "" } =
      some { Code := 401, Message := "" } :=
  ⟨rfl, rfl⟩

/-- C4, amended: the decode step returns a typed API error if and only
if the decoded body contains the error-message field at all (present,
possibly empty), carrying the envelope's code and that message. The
claim's two examples hold: a body with `Code` 2000 and no error field
decodes with no error, and a body with `Code` 401 and error message
"invalid token" yields the typed API error with code 401 and message
"invalid token". -/
theorem c4_error_iff_field_present :
    (∀ (code : Int) (m : Option String),
      respErr { Code := code, rawError := m } =
        m.map (fun msg => { Code := code, Message := msg })) ∧
    doJSON none credsU1T1 reqAuthed
        [{ statusCode := 200, body := some { Code := 2000, rawError := none } }] =
      .ok { Code := 2000, rawError := none } ∧
    doJSON none credsU1T1 reqAuthed
        [{ statusCode := 401,
           body := some { Code := 401, rawError := some "invalid token" } }] =
      .error (ClientError.apiError { Code := 401, Message := "invalid token" }) := by
  refine ⟨fun code m => ?_, rfl, rfl⟩
  cases m <;> rfl

/-- C5, counterexample: the claim says the typed API error carries the
response's numeric status code. On a response with HTTP status 200
whose body envelope has `Code` 2001 and message "oops", the decode
step returns the typed API error with code 2001 — the body's code, not
the response's status code 200. -/
theorem c5_counterexample :
    doJSON none credsU1T1 reqAuthed
        [{ statusCode := 200, body := some { Code := 2001, rawError := some "oops" } }] =
      .error (ClientError.apiError { Code := 2001, Message := "oops" }) ∧
    (2001 : Int) ≠ 200 :=
  ⟨rfl, by decide⟩

/-- C5, amended: whatever the HTTP status, when the decoded envelope
reports an error message the typed API error carries the envelope's
own `Code` field (from the response body) together with that
message. -/
theorem c5_code_from_envelope (creds : Creds) (req : Request) (s : Nat)
    (code : Int) (msg : String) :
    doJSON none creds req
        [{ statusCode := s, body := some { Code := code, rawError := some msg } }] =
      .error (ClientError.apiError { Code := code, Message := msg }) := by
  simp only [doJSON]
  rw [doSend_guard_fail _ _ _ _ _ (by rintro ⟨-, -, h3, -⟩; simp at h3)]
  rfl

/-- C6: building a JSON request from serialized bytes stores exactly
those bytes as the request body, and the stored replay function
(`GetBody`) yields content byte-identical to the originally serialized
body on every invocation. -/
theorem c6_json_body_replay (c : Client) (method path : String) (b : List Nat) :
    ∃ req, newJSONRequest c method path (.ok b) = .ok req ∧
      req.body = some b ∧
      ∃ gb, req.getBody = some gb ∧ ∀ u : Unit, gb u = .ok b := by
  refine ⟨_, rfl, ?_, ⟨_, rfl, fun u => rfl⟩⟩
  exact newRequest_body c method path (some b)

/-- C7: when the client's session identifier is empty, the request
builder attaches no authorization material at all — no session
identity header, no auth cookie, and no bearer authorization
header. -/
theorem c7_empty_uid_no_auth (c : Client) (method path : String)
    (body : Option (List Nat)) (huid : c.creds.uid = "") :
    (newRequest c method path body).hasHeader "X-Pm-Uid" = false ∧
    (newRequest c method path body).cookies = [] ∧
    (newRequest c method path body).hasHeader "Authorization" = false := by
  have hid : ∀ req : Request, setRequestAuthorization c.creds req = req := by
    intro req
    unfold setRequestAuthorization
    rw [if_neg (by simp [huid])]
  unfold newRequest
  rw [hid]
  refine ⟨?_, rfl, ?_⟩ <;>
    simp [Request.hasHeader, Request.setHeader, headersSet, headerAPIVersion,
      headerAppVersion, List.filter]

/-- C7, witness: the empty-session client attaches nothing, even with
stray token values present. -/
theorem c7_empty_uid_no_auth_witness :
    (newRequest clientAnon "GET" "/x" none).hasHeader "X-Pm-Uid" = false ∧
    (newRequest clientAnon "GET" "/x" none).cookies = [] ∧
    (newRequest clientAnon "GET" "/x" none).hasHeader "Authorization" = false :=
  c7_empty_uid_no_auth clientAnon "GET" "/x" none rfl

/-- C8, counterexample: the claim says the access token is cleared
whenever a 401 is observed. With no re-authentication hook configured,
a 401 is observed (and returned) yet the access token keeps its old
value `t1`: the clearing happens only when all three retry guards
hold. -/
theorem c8_counterexample :
    (doSend none credsU1T1 reqAuthed [r401]).result = .ok r401 ∧
    (doSend none credsU1T1 reqAuthed [r401]).creds.accessToken = "t1" :=
  ⟨rfl, rfl⟩

/-- C8, amended: when a 401 arrives with all three retry guards
holding, the access token is cleared before the hook runs — the first
hook invocation receives exactly the caller's credentials with the
token emptied, and every hook invocation during the whole send
receives a credential state whose access token is empty, so only the
hook can repopulate it. -/
theorem c8_cleared_when_guards_hold (hook : ReAuthHook) (creds : Creds)
    (req : Request) (r : Response) (rest : List Response)
    (h401 : r.statusCode = 401)
    (hauth : req.hasHeader "Authorization" = true)
    (hretry : (req.body.isNone || req.getBody.isSome) = true) :
    (∀ c ∈ (doSend (some hook) creds req (r :: rest)).hookInputs,
        c.accessToken = "") ∧
    (doSend (some hook) creds req (r :: rest)).hookInputs.head? =
      some { creds with accessToken := "" } :=
  ⟨doSend_hookInputs_cleared (some hook) (r :: rest) creds req,
   doSend_hookInputs_head (some hook) creds req r rest ⟨h401, hauth, rfl, hretry⟩⟩

/-- C8, witness: the amended theorem at the concrete fixtures. -/
theorem c8_cleared_when_guards_hold_witness :
    (∀ c ∈ (doSend (some hookT2) credsU1T1 reqAuthed [r401, r200ok]).hookInputs,
        c.accessToken = "") ∧
    (doSend (some hookT2) credsU1T1 reqAuthed [r401, r200ok]).hookInputs.head? =
      some { credsU1T1 with accessToken := "" } :=
  c8_cleared_when_guards_hold hookT2 credsU1T1 reqAuthed r401 [r200ok] rfl
    (by decide) (by decide)

/-- C9: with non-empty session identifier and non-empty `authToken`,
the builder attaches the auth token as a cookie whose name is the
fixed prefix `AUTH-` concatenated with the session identifier, the
token value percent-encoded by `url.QueryEscape`. -/
theorem c9_auth_cookie (c : Creds) (req : Request)
    (huid : c.uid ≠ "") (htok : c.authToken ≠ "") :
    (setRequestAuthorization c req).cookies =
      req.cookies ++
        [{ name := "AUTH-" ++ c.uid, value := queryEscape c.authToken }] :=
  setRequestAuthorization_cookies c req huid htok

/-- C9, witness: the populated credentials attach the cookie
`AUTH-u1` with the percent-encoded token. -/
theorem c9_auth_cookie_witness :
    (setRequestAuthorization credsU1T1 reqBare).cookies =
      reqBare.cookies ++
        [{ name := "AUTH-" ++ credsU1T1.uid,
           value := queryEscape credsU1T1.authToken }] :=
  c9_auth_cookie credsU1T1 reqBare (by decide) (by decide)

/-- C10: on the retry path after a successful re-authentication,
re-attaching authorization overwrites the `X-Pm-Uid` and
`Authorization` headers (each occurs exactly once, the bearer header
holding the fresh token) but appends a second auth cookie, so the
resent request carries two `AUTH-` cookies for the session. -/
theorem c10_retry_double_cookie (cl : Client) (c2 : Creds) (hook : ReAuthHook)
    (r : Response) (rest : List Response)
    (huid : cl.creds.uid ≠ "") (hacc : cl.creds.accessToken ≠ "")
    (htok : cl.creds.authToken ≠ "")
    (h401 : r.statusCode = 401)
    (hhook : hook { cl.creds with accessToken := "" } = .ok c2)
    (hc2uid : c2.uid = cl.creds.uid) (hc2tok : c2.authToken ≠ "")
    (hc2acc : c2.accessToken ≠ "") :
    ∃ req2,
      ((doSend (some hook) cl.creds (newRequest cl "GET" "/x" none)
          (r :: rest)).sent).get? 1 = some req2 ∧
      req2.cookies =
        [{ name := "AUTH-" ++ cl.creds.uid, value := queryEscape cl.creds.authToken },
         { name := "AUTH-" ++ cl.creds.uid, value := queryEscape c2.authToken }] ∧
      req2.headers.filter (fun p => p.1 == "X-Pm-Uid") = [("X-Pm-Uid", cl.creds.uid)] ∧
      req2.headers.filter (fun p => p.1 == "Authorization") =
        [("Authorization", "Bearer " ++ c2.accessToken)] := by
  have hauth : (newRequest cl "GET" "/x" none).hasHeader "Authorization" = true := by
    unfold newRequest
    exact setRequestAuthorization_hasAuth_of_creds _ _ huid hacc
  have hbody : (newRequest cl "GET" "/x" none).body = none :=
    newRequest_body cl "GET" "/x" none
  rw [doSend_retry_bodyless hook cl.creds c2 _ r rest h401 hauth hbody hhook]
  refine ⟨setRequestAuthorization c2 (newRequest cl "GET" "/x" none), ?_, ?_, ?_, ?_⟩
  · show (_ :: (doSend _ _ _ _).sent).get? 1 = _
    rw [List.get?_cons_succ, List.get?_zero]
    exact doSend_sent_head _ _ _ _
  · have hcuid2 : c2.uid ≠ "" := by rw [hc2uid]; exact huid
    rw [setRequestAuthorization_cookies c2 _ hcuid2 hc2tok]
    have hbuild : (newRequest cl "GET" "/x" none).cookies =
        [{ name := "AUTH-" ++ cl.creds.uid, value := queryEscape cl.creds.authToken }] := by
      unfold newRequest
      rw [setRequestAuthorization_cookies cl.creds _ huid htok]
      rfl
    rw [hbuild, hc2uid]
    rfl
  · have hcuid2 : c2.uid ≠ "" := by rw [hc2uid]; exact huid
    rw [setRequestAuthorization_headers c2 _ hcuid2 hc2acc,
      filter_key_headersSet_ne _ _ _ _ (by decide),
      filter_key_headersSet_same, hc2uid]
  · rw [setRequestAuthorization_headers c2 _ (by rw [hc2uid]; exact huid) hc2acc,
      filter_key_headersSet_same]

/-- C10, witness: at the concrete fixtures, the retried request
carries the doubled `AUTH-u1` cookie and single overwritten headers. -/
theorem c10_retry_double_cookie_witness :
    ∃ req2,
      ((doSend (some hookT2) clientU1.creds (newRequest clientU1 "GET" "/x" none)
          [r401, r200ok]).sent).get? 1 = some req2 ∧
      req2.cookies =
        [{ name := "AUTH-" ++ clientU1.creds.uid,
           value := queryEscape clientU1.creds.authToken },
         { name := "AUTH-" ++ clientU1.creds.uid,
           value := queryEscape credsU1T2.authToken }] ∧
      req2.headers.filter (fun p => p.1 == "X-Pm-Uid") =
        [("X-Pm-Uid", clientU1.creds.uid)] ∧
      req2.headers.filter (fun p => p.1 == "Authorization") =
        [("Authorization", "Bearer " ++ credsU1T2.accessToken)] :=
  c10_retry_double_cookie clientU1 credsU1T2 hookT2
    r401 [r200ok] (by decide) (by decide) (by decide) rfl rfl rfl
    (by decide) (by decide)

end Protonmail
